import Mathlib

/-!
Shallow embedding of the real-time update client of this repository
(frontend/src/hooks/useWebSocket.js).  The source file holds two
independent hook variants:

* variant 1 (`useWebSocket (userId)`): plain reconnect with exponential
  backoff `Math.pow(2, attempts) * 1000`, a notification feed capped at
  50 entries, per-entity task/workflow progress maps, and
  subscribe/markRead commands that send immediately over the socket;
* variant 2 (`useWebSocket (url, options)`): heartbeat, message history
  capped at 100, linear backoff `reconnectInterval * attempts`, a close
  handler that suppresses reconnection for the normal-closure code 1000,
  and a terminal "Max reconnection attempts reached" error.

Each variant is embedded as a step function over an explicit state
record.  React `useState`/`useRef` cells become record fields.  Ghost
instrumentation fields (they mirror externally observable effects, never
feed back into control flow): `scheduledLog` records the delay of every
reconnect `setTimeout` ever scheduled, `sentOnCurrent` records the wire
messages sent since the current connection opened, `inFlight` counts
sockets constructed and not yet closed, `socketsCreated` counts
constructor calls.
-/

/-- A notification record as stored in variant 1's feed: the fields the
dispatcher reads back are `id` and the `read` flag; `kind` and `body`
stand for the remaining payload fields. -/
structure Notif where
  id : String
  kind : String
  body : String
  read : Bool
  deriving DecidableEq, Repr

/-- The seven inbound message types that variant 1's dispatcher treats as
notification-kind (they share one `switch` fall-through arm). -/
inductive NotifKind
  | systemNotification
  | taskComplete
  | taskFailed
  | info
  | success
  | warning
  | error
  deriving DecidableEq, Repr

/-- Inbound messages recognised by variant 1's `handleMessage` switch;
`other none` stands for a decoded JSON object with no `type` field,
`other (some ty)` for an unknown discriminator `ty`. -/
inductive InMsg
  | connectionEstablished (connectionId : String)
  | initialNotifications (notifs : List Notif)
  | taskUpdate (taskId : String) (data : String)
  | workflowUpdate (workflowId : String) (data : String)
  | notification (kind : NotifKind) (payload : Notif)
  | subscriptionConfirmed (resourceType : String) (resourceId : String)
  | notificationMarkedRead (success : Bool) (notificationId : String)
  | pong
  | other (ty : Option String)
  deriving DecidableEq, Repr

/-- Outbound wire messages of variant 1. -/
inductive OutMsg
  | subscribeTask (taskId : String)
  | subscribeWorkflow (workflowId : String)
  | markNotificationRead (notificationId : String)
  | ping (timestamp : Nat)
  deriving DecidableEq, Repr

/-- A raw transport frame: either valid JSON decoding to a message, or a
payload that `JSON.parse` rejects. -/
inductive Frame (μ : Type)
  | json (m : μ)
  | invalid (raw : String)
  deriving DecidableEq, Repr

/-- The codec boundary: which message, if any, a frame decodes to. -/
def decodeFrame {μ : Type} : Frame μ → Option μ
  | Frame.json m => some m
  | Frame.invalid _ => none

/-- State of the variant-1 hook.  `userId` is the hook argument
(`none` models null/undefined, `some ""` the empty string — all falsy in
the `if (!userId) return` guard).  `taskUpdates`/`workflowUpdates` are
the JS objects updated by spread, embedded as lookup functions. -/
structure V1State where
  userId : Option String
  socket : Option Nat
  isConnected : Bool
  notifications : List Notif
  taskUpdates : String → Option String
  workflowUpdates : String → Option String
  reconnectAttempts : Nat
  socketsCreated : Nat
  inFlight : Nat
  scheduledLog : List Nat
  sentOnCurrent : List OutMsg

/-- JS truthiness of the `userId` argument: `!userId` is true for
null/undefined (`none`) and for the empty string. -/
def userIdPresent : Option String → Bool
  | none => false
  | some u => !u.isEmpty

/-- Variant 1 `connect`: `if (!userId) return;` else construct a new
`WebSocket` (no guard against an existing CONNECTING/OPEN socket; the
`socket` state cell is only set later, in `onopen`). -/
def v1connect (s : V1State) : V1State :=
  if userIdPresent s.userId then
    { s with socketsCreated := s.socketsCreated + 1, inFlight := s.inFlight + 1 }
  else s

/-- Variant 1 `newSocket.onopen`: set connected, store the socket, reset
the reconnect-attempt counter to zero.  It performs no sends, so the
sent-on-this-connection log starts empty. -/
def v1onopen (s : V1State) : V1State :=
  { s with isConnected := true, socket := some s.socketsCreated,
           reconnectAttempts := 0, sentOnCurrent := [] }

/-- Variant 1 `handleMessage`: the dispatcher switch on `message.type`. -/
def v1handleMessage (m : InMsg) (s : V1State) : V1State :=
  match m with
  | InMsg.connectionEstablished _ => s
  | InMsg.initialNotifications ns => { s with notifications := ns }
  | InMsg.taskUpdate k d =>
      { s with taskUpdates := fun q => if q = k then some d else s.taskUpdates q }
  | InMsg.workflowUpdate k d =>
      { s with workflowUpdates := fun q => if q = k then some d else s.workflowUpdates q }
  | InMsg.notification _ p =>
      { s with notifications := p :: s.notifications.take 49 }
  | InMsg.subscriptionConfirmed _ _ => s
  | InMsg.notificationMarkedRead success nid =>
      if success then
        { s with notifications :=
            s.notifications.map (fun n => if n.id = nid then { n with read := true } else n) }
      else s
  | InMsg.pong => s
  | InMsg.other _ => s

/-- Variant 1 `newSocket.onmessage`: `JSON.parse` inside try/catch; a
frame that fails to parse is only logged (state unchanged), a parsed
message goes to `handleMessage`. -/
def v1onmessage (s : V1State) (f : Frame InMsg) : V1State :=
  match f with
  | Frame.json m => v1handleMessage m s
  | Frame.invalid _ => s

/-- Variant 1 `newSocket.onclose`: clear connected/socket, then — with no
check whether the close was intentional — if the attempt counter is below
the ceiling 5, increment it and schedule a reconnect after
`Math.pow(2, attempts) * 1000` ms. -/
def v1onclose (s : V1State) : V1State :=
  let s1 := { s with isConnected := false, socket := none, inFlight := s.inFlight - 1 }
  if s1.reconnectAttempts < 5 then
    { s1 with reconnectAttempts := s1.reconnectAttempts + 1,
              scheduledLog := s1.scheduledLog ++ [2 ^ (s1.reconnectAttempts + 1) * 1000] }
  else s1

/-- Variant 1 `disconnect`: if a socket is stored, call `socket.close()`
(the transport later delivers a close event to `onclose`) and clear the
`socket`/`isConnected` cells.  No intentional-close marker is recorded
anywhere. -/
def v1disconnect (s : V1State) : V1State :=
  match s.socket with
  | some _ => { s with socket := none, isConnected := false }
  | none => s

/-- Variant 1 `sendMessage`: transmit only `if (socket && isConnected)`,
else warn and drop. -/
def v1sendMessage (s : V1State) (m : OutMsg) : V1State :=
  if s.socket.isSome && s.isConnected then
    { s with sentOnCurrent := s.sentOnCurrent ++ [m] }
  else s

/-- Variant 1 `subscribeToTask`: a single immediate send, nothing else. -/
def v1subscribeToTask (s : V1State) (taskId : String) : V1State :=
  v1sendMessage s (OutMsg.subscribeTask taskId)

/-- Variant 1 `subscribeToWorkflow`: a single immediate send. -/
def v1subscribeToWorkflow (s : V1State) (workflowId : String) : V1State :=
  v1sendMessage s (OutMsg.subscribeWorkflow workflowId)

/-- Variant 1 `markNotificationRead`: a single immediate send. -/
def v1markNotificationRead (s : V1State) (notificationId : String) : V1State :=
  v1sendMessage s (OutMsg.markNotificationRead notificationId)

/-- Events driving the variant-1 hook: caller calls and transport
callbacks.  `closeEv` is the transport close event (the source handler
takes no argument and inspects no close code). -/
inductive V1Event
  | connectEv
  | openEv
  | messageEv (f : Frame InMsg)
  | closeEv
  | disconnectEv
  | subscribeTaskEv (taskId : String)
  | subscribeWorkflowEv (workflowId : String)
  | markReadEv (notificationId : String)

/-- One step of the variant-1 hook. -/
def v1step (s : V1State) : V1Event → V1State
  | V1Event.connectEv => v1connect s
  | V1Event.openEv => v1onopen s
  | V1Event.messageEv f => v1onmessage s f
  | V1Event.closeEv => v1onclose s
  | V1Event.disconnectEv => v1disconnect s
  | V1Event.subscribeTaskEv i => v1subscribeToTask s i
  | V1Event.subscribeWorkflowEv i => v1subscribeToWorkflow s i
  | V1Event.markReadEv i => v1markNotificationRead s i

/-- Run a list of events through the variant-1 hook. -/
def v1run (evs : List V1Event) (s : V1State) : V1State :=
  evs.foldl v1step s

/-- Fresh variant-1 hook state for a given `userId` argument. -/
def v1init (u : Option String) : V1State :=
  { userId := u, socket := none, isConnected := false, notifications := [],
    taskUpdates := fun _ => none, workflowUpdates := fun _ => none,
    reconnectAttempts := 0, socketsCreated := 0, inFlight := 0,
    scheduledLog := [], sentOnCurrent := [] }

/-- Inbound messages as variant 2's `ws.onmessage` distinguishes them:
`pong` (early return), `err text` (a `type: 'error'` message whose
`message` field is `text`), and everything else (stored but otherwise
unhandled). -/
inductive InMsg2
  | pong
  | err (text : String)
  | otherMsg (ty : String)
  deriving DecidableEq, Repr

/-- Variant 2 default `options.maxReconnectAttempts`. -/
def maxReconnectAttempts : Nat := 5

/-- Variant 2 default `options.reconnectInterval` (ms). -/
def reconnectInterval : Nat := 3000

/-- Keep the last `n` elements of a list: `Array.slice(-n)`. -/
def takeLast {α : Type} (n : Nat) (l : List α) : List α :=
  l.drop (l.length - n)

/-- State of the variant-2 hook.  `pendingTimer` is
`reconnectTimeoutRef` (the delay of the pending reconnect timer),
`heartbeatOn` mirrors whether `heartbeatTimeoutRef` holds a live
interval; `scheduledLog`/`socketsCreated` are ghost instrumentation as
in variant 1.  `readyState` uses the WebSocket constants
(0 CONNECTING, 1 OPEN, 2 CLOSING, 3 CLOSED). -/
structure V2State where
  socket : Option Nat
  lastMessage : Option InMsg2
  readyState : Nat
  isConnected : Bool
  connectionError : Option String
  messageHistory : List InMsg2
  reconnectAttempts : Nat
  pendingTimer : Option Nat
  heartbeatOn : Bool
  socketsCreated : Nat
  scheduledLog : List Nat
  deriving DecidableEq, Repr

/-- Variant 2 `connect`: builds the URL and constructs a new `WebSocket`
unconditionally — there is no guard against an existing CONNECTING/OPEN
socket. -/
def v2connect (s : V2State) : V2State :=
  { s with socketsCreated := s.socketsCreated + 1 }

/-- Variant 2 `ws.onopen`: store socket, readyState OPEN, connected,
clear the error, reset the attempt counter, start the heartbeat. -/
def v2onopen (s : V2State) : V2State :=
  { s with socket := some s.socketsCreated, readyState := 1,
           isConnected := true, connectionError := none,
           reconnectAttempts := 0, heartbeatOn := true }

/-- Variant 2 `ws.onmessage`: a frame that fails `JSON.parse` is only
logged.  A parsed message first updates `lastMessage` and is appended to
`messageHistory` (keeping the last 100); then `pong` returns early and a
`type: 'error'` message sets `connectionError`. -/
def v2onmessage (s : V2State) (f : Frame InMsg2) : V2State :=
  match f with
  | Frame.invalid _ => s
  | Frame.json m =>
      let s1 := { s with lastMessage := some m,
                         messageHistory := takeLast 100 (s.messageHistory ++ [m]) }
      match m with
      | InMsg2.pong => s1
      | InMsg2.err t => { s1 with connectionError := some t }
      | InMsg2.otherMsg _ => s1

/-- Variant 2 `ws.onerror`: record a connection error and drop the
connected flag. -/
def v2onerror (s : V2State) : V2State :=
  { s with connectionError := some "Connection error occurred", isConnected := false }

/-- Variant 2 `ws.onclose (event)`: clear socket/connected, stop the
heartbeat; then, only when the close code is not the normal closure 1000
and the attempt counter is below the ceiling, increment the counter and
schedule a reconnect after `reconnectInterval * attempts` ms (linear);
when the counter has reached the ceiling, surface the terminal error. -/
def v2onclose (s : V2State) (code : Nat) : V2State :=
  let s1 := { s with socket := none, readyState := 3, isConnected := false,
                     heartbeatOn := false }
  if code ≠ 1000 ∧ s1.reconnectAttempts < maxReconnectAttempts then
    { s1 with reconnectAttempts := s1.reconnectAttempts + 1,
              pendingTimer := some (reconnectInterval * (s1.reconnectAttempts + 1)),
              scheduledLog := s1.scheduledLog ++ [reconnectInterval * (s1.reconnectAttempts + 1)] }
  else if s1.reconnectAttempts ≥ maxReconnectAttempts then
    { s1 with connectionError := some "Max reconnection attempts reached" }
  else s1

/-- Variant 2 `disconnect`: cancel the pending reconnect timer, stop the
heartbeat, close the socket with code 1000 ("User initiated disconnect")
if one exists, and clear the socket/connected cells. -/
def v2disconnect (s : V2State) : V2State :=
  { s with pendingTimer := none, heartbeatOn := false,
           socket := none, isConnected := false }

/-- Events driving the variant-2 hook; `closeEv code` carries the close
event's code, which the handler compares with 1000. -/
inductive V2Event
  | connectEv
  | openEv
  | messageEv (f : Frame InMsg2)
  | errorEv
  | closeEv (code : Nat)
  | disconnectEv

/-- One step of the variant-2 hook. -/
def v2step (s : V2State) : V2Event → V2State
  | V2Event.connectEv => v2connect s
  | V2Event.openEv => v2onopen s
  | V2Event.messageEv f => v2onmessage s f
  | V2Event.errorEv => v2onerror s
  | V2Event.closeEv code => v2onclose s code
  | V2Event.disconnectEv => v2disconnect s

/-- Run a list of events through the variant-2 hook. -/
def v2run (evs : List V2Event) (s : V2State) : V2State :=
  evs.foldl v2step s

/-- Fresh variant-2 hook state. -/
def v2initA : V2State :=
  { socket := none, lastMessage := none, readyState := 0, isConnected := false,
    connectionError := none, messageHistory := [], reconnectAttempts := 0,
    pendingTimer := none, heartbeatOn := false, socketsCreated := 0,
    scheduledLog := [] }

/-- `n` consecutive involuntary closes (abnormal code 1006), the
scenario of N dropped connections with no intervening OPEN. -/
def closeIter : Nat → V2State → V2State
  | 0, s => s
  | n + 1, s => closeIter n (v2step s (V2Event.closeEv 1006))

/-- A variant-2 state whose attempt counter already sits at the ceiling. -/
def v2init5 : V2State :=
  { v2initA with reconnectAttempts := 5 }

/-- A sample notification record. -/
def n0 : Notif :=
  { id := "n", kind := "info", body := "b", read := false }

/-- A variant-1 state whose feed is exactly at the 50-entry cap. -/
def s50 : V1State :=
  { v1init (some "u") with notifications := List.replicate 50 n0 }

/-! ### Helper lemmas -/

/-- A run of `task_update` messages keyed `k` leaves every other key of
the task progress map untouched. -/
theorem v1taskFold_other_key (k : String) (ds : List String) :
    ∀ (s : V1State) (q : String), q ≠ k →
      (ds.foldl (fun st p => v1handleMessage (InMsg.taskUpdate k p) st) s).taskUpdates q
        = s.taskUpdates q := by
  induction ds with
  | nil => intro s q _; rfl
  | cons d ds ih =>
      intro s q hq
      simp only [List.foldl_cons]
      rw [ih _ q hq]
      simp [v1handleMessage, hq]

/-- A run of `workflow_update` messages keyed `k` leaves every other key
of the workflow progress map untouched. -/
theorem v1wfFold_other_key (k : String) (ds : List String) :
    ∀ (s : V1State) (q : String), q ≠ k →
      (ds.foldl (fun st p => v1handleMessage (InMsg.workflowUpdate k p) st) s).workflowUpdates q
        = s.workflowUpdates q := by
  induction ds with
  | nil => intro s q _; rfl
  | cons d ds ih =>
      intro s q hq
      simp only [List.foldl_cons]
      rw [ih _ q hq]
      simp [v1handleMessage, hq]

/-- No variant-2 event pushes the attempt counter past the ceiling. -/
theorem v2step_attempts_le (s : V2State) (e : V2Event)
    (h : s.reconnectAttempts ≤ 5) : (v2step s e).reconnectAttempts ≤ 5 := by
  cases e with
  | connectEv => simpa [v2step, v2connect] using h
  | openEv => simp [v2step, v2onopen]
  | messageEv f =>
      cases f with
      | invalid raw => simpa [v2step, v2onmessage] using h
      | json m => cases m <;> simpa [v2step, v2onmessage] using h
  | errorEv => simpa [v2step, v2onerror] using h
  | closeEv code =>
      simp only [v2step, v2onclose, maxReconnectAttempts]
      split_ifs with h1 h2 <;> simp <;> omega
  | disconnectEv => simpa [v2step, v2disconnect] using h

/-- The attempt-counter ceiling is preserved along any event run. -/
theorem v2run_attempts_le (evs : List V2Event) :
    ∀ s : V2State, s.reconnectAttempts ≤ 5 →
      (v2run evs s).reconnectAttempts ≤ 5 := by
  induction evs with
  | nil => intro s h; simpa [v2run] using h
  | cons e evs ih =>
      intro s h
      simp only [v2run, List.foldl_cons]
      exact ih (v2step s e) (v2step_attempts_le s e h)

/-- Effect of one abnormal close (code 1006) on the attempt counter. -/
theorem v2close_abnormal_attempts (s : V2State) :
    (v2step s (V2Event.closeEv 1006)).reconnectAttempts
      = if s.reconnectAttempts < 5 then s.reconnectAttempts + 1
        else s.reconnectAttempts := by
  simp only [v2step, v2onclose, maxReconnectAttempts]
  split_ifs with h1 h2 <;> simp_all

/-- Effect of one abnormal close (code 1006) on the scheduled log. -/
theorem v2close_abnormal_log (s : V2State) :
    (v2step s (V2Event.closeEv 1006)).scheduledLog
      = if s.reconnectAttempts < 5 then
          s.scheduledLog ++ [reconnectInterval * (s.reconnectAttempts + 1)]
        else s.scheduledLog := by
  simp only [v2step, v2onclose, maxReconnectAttempts]
  split_ifs with h1 h2 <;> simp_all

/-- After `n` consecutive involuntary closes the scheduled log has grown
by `min n (5 - attempts)` entries: scheduling stops at the ceiling. -/
theorem closeIter_log_len (n : Nat) :
    ∀ s : V2State, (closeIter n s).scheduledLog.length
      = s.scheduledLog.length + min n (5 - s.reconnectAttempts) := by
  induction n with
  | zero => intro s; simp [closeIter]
  | succ n ih =>
      intro s
      simp only [closeIter]
      rw [ih (v2step s (V2Event.closeEv 1006))]
      rw [v2close_abnormal_log, v2close_abnormal_attempts]
      by_cases ha : s.reconnectAttempts < 5 <;> simp [ha] <;> omega

/-! ### Claim C10 -/

/-- Claim C10: in the variant-1 hook, `connect()` with an absent userId
(null/undefined/empty string) is a complete no-op: no socket is
constructed, nothing is scheduled, and the whole state — including
`isConnected`, `notifications`, `taskUpdates`, `workflowUpdates` — is
unchanged. -/
theorem c10_connect_noop_without_userId (s : V1State)
    (h : userIdPresent s.userId = false) :
    v1step s V1Event.connectEv = s := by
  simp [v1step, v1connect, h]

/-- Witness for C10 at the concrete state of a hook created with a null
userId. -/
theorem c10_connect_noop_without_userId_witness :
    v1step (v1init none) V1Event.connectEv = v1init none :=
  c10_connect_noop_without_userId (v1init none) (by decide)

/-! ### Claim C8 -/

/-- Claim C8: message handling never throws past the subsystem boundary
(every handler below is a total function): a frame that fails JSON
decoding is dropped — the state passes through unchanged and the
dispatcher `v1handleMessage` is reached only for decoded messages; a
decoded message with an unknown or absent `type` leaves the whole
variant-1 state (in particular the notification feed and the progress
maps) unchanged; variant 2 likewise drops undecodable frames
unchanged. -/
theorem c8_malformed_and_unknown_safe :
    (∀ (s : V1State) (f : Frame InMsg),
        v1onmessage s f = match decodeFrame f with
          | some m => v1handleMessage m s
          | none => s)
  ∧ (∀ (s : V1State) (raw : String), v1onmessage s (Frame.invalid raw) = s)
  ∧ (∀ (s : V1State) (ty : Option String), v1handleMessage (InMsg.other ty) s = s)
  ∧ (∀ (s : V2State) (raw : String), v2onmessage s (Frame.invalid raw) = s) := by
  refine ⟨?_, ?_, ?_, ?_⟩
  · intro s f; cases f <;> rfl
  · intro s _; rfl
  · intro s _; rfl
  · intro s _; rfl

/-! ### Claim C9 -/

/-- Claim C9 counterexample: in variant 2 a `pong` message does change
state the client exposes — the hook returns `messageHistory` (and
`lastMessage`), and `ws.onmessage` appends every parsed message to the
history before the `pong` early-return.  Processing a `pong` from the
fresh state grows the exposed `messageHistory` from `[]` to `[pong]`. -/
theorem c9_pong_mutates_v2_history :
    ((v2onmessage v2initA (Frame.json InMsg2.pong)).messageHistory = [InMsg2.pong])
  ∧ (v2initA.messageHistory = [])
  ∧ ((v2onmessage v2initA (Frame.json InMsg2.pong)).messageHistory
      ≠ v2initA.messageHistory) := by
  refine ⟨rfl, rfl, by decide⟩

/-- Claim C9 (amended): a `pong` leaves the entire variant-1 state
unchanged (feed, progress maps, everything); in variant 2 it leaves
`connectionError`, `isConnected`, `reconnectAttempts` and `socket`
unchanged but does update the exposed `lastMessage` and
`messageHistory`, because `ws.onmessage` stores every parsed message
before the `pong` early-return. -/
theorem c9_pong_effects (s : V1State) (t : V2State) :
    (v1handleMessage InMsg.pong s = s)
  ∧ ((v2onmessage t (Frame.json InMsg2.pong)).connectionError = t.connectionError
      ∧ (v2onmessage t (Frame.json InMsg2.pong)).isConnected = t.isConnected
      ∧ (v2onmessage t (Frame.json InMsg2.pong)).reconnectAttempts = t.reconnectAttempts
      ∧ (v2onmessage t (Frame.json InMsg2.pong)).socket = t.socket
      ∧ (v2onmessage t (Frame.json InMsg2.pong)).messageHistory
          = takeLast 100 (t.messageHistory ++ [InMsg2.pong])
      ∧ (v2onmessage t (Frame.json InMsg2.pong)).lastMessage = some InMsg2.pong) :=
  ⟨rfl, rfl, rfl, rfl, rfl, rfl, rfl⟩

/-! ### Claim C1 -/

/-- Claim C1 counterexample: the variant-1 close handler carries no
intentional-close marker, so the close produced by an explicit
`disconnect()` call does trigger the reconnection policy.  Run
connect → open → `disconnect()` → transport close (the close event that
`socket.close()` causes): one reconnect is scheduled (delay 2000 ms),
not zero. -/
theorem c1_disconnect_schedules_retry :
    (v1run [V1Event.connectEv, V1Event.openEv, V1Event.disconnectEv, V1Event.closeEv]
        (v1init (some "u"))).scheduledLog = [2000] := by
  rfl

/-- Claim C1 (amended): the property holds in variant 2, whose
`disconnect` cancels the pending retry timer and closes with the normal
code 1000, and whose close handler schedules a retry only for codes
other than 1000: after `disconnect()` and the resulting close event
with code 1000, no reconnect was scheduled and no timer is pending. -/
theorem c1_v2_disconnect_no_retry (s : V2State) :
    ((v2step (v2step s V2Event.disconnectEv) (V2Event.closeEv 1000)).scheduledLog
        = s.scheduledLog)
  ∧ ((v2step (v2step s V2Event.disconnectEv) (V2Event.closeEv 1000)).pendingTimer
        = none) := by
  simp only [v2step, v2disconnect, v2onclose, maxReconnectAttempts]
  split_ifs with h1 h2 <;> simp_all

/-! ### Claim C2 -/

/-- Claim C2: the attempt counter resets to zero on any transition to
OPEN (both variants); along any variant-2 event run it never exceeds the
ceiling 5; a close arriving with the counter at the ceiling schedules
nothing and surfaces the terminal "Max reconnection attempts reached"
status; and over any `n ≥ 5` consecutive involuntary closes with no
intervening OPEN, exactly 5 attempts are ever scheduled — no attempt 6
exists. -/
theorem c2_attempt_counter_ceiling :
    (∀ s : V1State, (v1onopen s).reconnectAttempts = 0)
  ∧ (∀ s : V2State, (v2onopen s).reconnectAttempts = 0)
  ∧ (∀ (s : V2State) (evs : List V2Event), s.reconnectAttempts ≤ 5 →
        (v2run evs s).reconnectAttempts ≤ 5)
  ∧ (∀ (s : V2State) (code : Nat), s.reconnectAttempts = 5 →
        (v2onclose s code).scheduledLog = s.scheduledLog
        ∧ (v2onclose s code).connectionError = some "Max reconnection attempts reached")
  ∧ (∀ n : Nat, 5 ≤ n → (closeIter n v2initA).scheduledLog.length = 5) := by
  refine ⟨fun s => rfl, fun s => rfl, fun s evs h => v2run_attempts_le evs s h, ?_, ?_⟩
  · intro s code h
    simp only [v2onclose, maxReconnectAttempts]
    split_ifs with h1 h2 <;> simp_all
  · intro n hn
    rw [closeIter_log_len]
    simp [v2initA]
    omega

/-- Witness for C2 at concrete inputs: a one-close run from the fresh
state stays under the ceiling; a close at the ceiling schedules nothing
and sets the terminal error; six consecutive involuntary closes schedule
exactly five attempts. -/
theorem c2_attempt_counter_ceiling_witness :
    ((v2run [V2Event.closeEv 1006] v2initA).reconnectAttempts ≤ 5)
  ∧ ((v2onclose v2init5 1006).scheduledLog = v2init5.scheduledLog
      ∧ (v2onclose v2init5 1006).connectionError = some "Max reconnection attempts reached")
  ∧ ((closeIter 6 v2initA).scheduledLog.length = 5) :=
  ⟨c2_attempt_counter_ceiling.2.2.1 v2initA [V2Event.closeEv 1006] (by decide),
   c2_attempt_counter_ceiling.2.2.2.1 v2init5 1006 (by decide),
   c2_attempt_counter_ceiling.2.2.2.2 6 (by decide)⟩

/-! ### Claim C7 -/

/-- Claim C7 counterexample: variant 2's `ws.onclose` (one of the two
handlers the claim covers) schedules linearly, `reconnectInterval *
attempts`.  Three consecutive involuntary closes from the fresh state
schedule delays 3000, 6000, 9000 ms; any exponential schedule
`base × growth^k` satisfies `d2 * d2 = d1 * d3`, and 6000² ≠ 3000·9000,
so no base delay and growth factor make variant 2's delays fit the
claim's formula. -/
theorem c7_v2_backoff_not_exponential :
    ((closeIter 3 v2initA).scheduledLog = [3000, 6000, 9000])
  ∧ (6000 * 6000 ≠ 3000 * 9000) := by
  exact ⟨by decide, by decide⟩

/-- Claim C7 (amended): variant 1 schedules exponentially — after the
counter is incremented to `k` (below the ceiling), the retry delay is
`2^k * 1000` ms, i.e. base delay 1000 ms × growth factor 2 to the k, so
the first retry after a drop comes at 1000 × 2¹ = 2000 ms; variant 2
instead schedules linearly at `3000 * k` ms, which fits no exponential
`base × growth^k` formula. -/
theorem c7_backoff_formulas (s : V1State) (t : V2State) (code : Nat)
    (hs : s.reconnectAttempts < 5) (hcode : code ≠ 1000)
    (ht : t.reconnectAttempts < maxReconnectAttempts) :
    ((v1onclose s).scheduledLog = s.scheduledLog ++ [2 ^ (s.reconnectAttempts + 1) * 1000])
  ∧ ((v2onclose t code).scheduledLog
      = t.scheduledLog ++ [reconnectInterval * (t.reconnectAttempts + 1)]) := by
  constructor
  · simp only [v1onclose]
    rw [if_pos hs]
  · simp only [v2onclose]
    rw [if_pos ⟨hcode, ht⟩]

/-- Witness for C7's amended statement at the fresh states of both
variants: the first retry after a drop is scheduled at 2¹ × 1000 ms in
variant 1 and at 3000 × 1 ms in variant 2. -/
theorem c7_backoff_formulas_witness :
    ((v1onclose (v1init (some "u"))).scheduledLog
        = (v1init (some "u")).scheduledLog
            ++ [2 ^ ((v1init (some "u")).reconnectAttempts + 1) * 1000])
  ∧ ((v2onclose v2initA 1006).scheduledLog
        = v2initA.scheduledLog ++ [reconnectInterval * (v2initA.reconnectAttempts + 1)]) :=
  c7_backoff_formulas (v1init (some "u")) v2initA 1006 (by decide) (by decide) (by decide)

/-! ### Claim C3 -/

/-- Claim C3 counterexample: neither `connect` checks for an existing
CONNECTING/OPEN socket.  In variant 1, with a connection already OPEN, a
second `connect()` call constructs a second `WebSocket`: two sockets are
simultaneously in phase OPEN or CONNECTING (`inFlight = 2`), so the call
was not a no-op and the at-most-one-socket invariant fails; variant 2's
`connect` likewise constructs unconditionally. -/
theorem c3_connect_not_idempotent :
    ((v1run [V1Event.connectEv, V1Event.openEv, V1Event.connectEv]
        (v1init (some "u"))).inFlight = 2)
  ∧ ((v1run [V1Event.connectEv, V1Event.openEv] (v1init (some "u"))).inFlight = 1)
  ∧ ((v2connect (v2onopen (v2connect v2initA))).socketsCreated = 2) :=
  ⟨rfl, rfl, rfl⟩

/-- Claim C3 (amended): `connect()` is unguarded in both variants — every
call with a present userId (variant 1) constructs a fresh socket
whatever the current connection phase, and variant 2's `connect`
constructs unconditionally; so repeated calls create parallel sockets
rather than being no-ops. -/
theorem c3_connect_unguarded (s : V1State) (t : V2State)
    (h : userIdPresent s.userId = true) :
    ((v1connect s).inFlight = s.inFlight + 1)
  ∧ ((v1connect s).socketsCreated = s.socketsCreated + 1)
  ∧ ((v2connect t).socketsCreated = t.socketsCreated + 1) := by
  refine ⟨?_, ?_, rfl⟩ <;> simp [v1connect, h]

/-- Witness for C3's amended statement at a concrete already-OPEN
variant-1 state and the fresh variant-2 state. -/
theorem c3_connect_unguarded_witness :
    ((v1connect (v1onopen (v1connect (v1init (some "u"))))).inFlight
        = (v1onopen (v1connect (v1init (some "u")))).inFlight + 1)
  ∧ ((v1connect (v1onopen (v1connect (v1init (some "u"))))).socketsCreated
        = (v1onopen (v1connect (v1init (some "u")))).socketsCreated + 1)
  ∧ ((v2connect v2initA).socketsCreated = v2initA.socketsCreated + 1) :=
  c3_connect_unguarded (v1onopen (v1connect (v1init (some "u")))) v2initA (by decide)

/-! ### Claim C4 -/

/-- Claim C4 counterexample: variant 1 keeps no subscription registry
and its `onopen` sends nothing, so subscriptions do not survive
connection loss.  Run connect → open → `subscribeToTask "A"`: exactly
one subscribe message goes out on the first connection; after the
connection drops and the scheduled retry reconnects (close → connect →
open), the set of messages sent on the new connection is empty — the
registered subscription to task "A" is never re-sent. -/
theorem c4_no_replay_on_reconnect :
    ((v1run [V1Event.connectEv, V1Event.openEv, V1Event.subscribeTaskEv "A"]
        (v1init (some "u"))).sentOnCurrent = [OutMsg.subscribeTask "A"])
  ∧ ((v1run [V1Event.connectEv, V1Event.openEv, V1Event.subscribeTaskEv "A",
             V1Event.closeEv, V1Event.connectEv, V1Event.openEv]
        (v1init (some "u"))).sentOnCurrent = []) :=
  ⟨rfl, rfl⟩

/-- Claim C4 (amended): a subscribe call transmits exactly one subscribe
wire message at the moment of the call, provided a socket is stored and
the hook is connected; the transition to OPEN itself sends no subscribe
messages (there is no registry to replay). -/
theorem c4_subscribe_sends_once (s : V1State) (taskId workflowId : String)
    (hs : s.socket.isSome = true) (hc : s.isConnected = true) :
    ((v1onopen s).sentOnCurrent = [])
  ∧ ((v1subscribeToTask s taskId).sentOnCurrent
      = s.sentOnCurrent ++ [OutMsg.subscribeTask taskId])
  ∧ ((v1subscribeToWorkflow s workflowId).sentOnCurrent
      = s.sentOnCurrent ++ [OutMsg.subscribeWorkflow workflowId]) := by
  refine ⟨rfl, ?_, ?_⟩ <;>
    simp [v1subscribeToTask, v1subscribeToWorkflow, v1sendMessage, hs, hc]

/-- Witness for C4's amended statement at the concrete state reached
after connect → open. -/
theorem c4_subscribe_sends_once_witness :
    ((v1onopen (v1onopen (v1connect (v1init (some "u"))))).sentOnCurrent = [])
  ∧ ((v1subscribeToTask (v1onopen (v1connect (v1init (some "u")))) "A").sentOnCurrent
      = (v1onopen (v1connect (v1init (some "u")))).sentOnCurrent
          ++ [OutMsg.subscribeTask "A"])
  ∧ ((v1subscribeToWorkflow (v1onopen (v1connect (v1init (some "u")))) "W").sentOnCurrent
      = (v1onopen (v1connect (v1init (some "u")))).sentOnCurrent
          ++ [OutMsg.subscribeWorkflow "W"]) :=
  c4_subscribe_sends_once (v1onopen (v1connect (v1init (some "u")))) "A" "W"
    (by decide) (by decide)

/-! ### Claim C5 -/

/-- Claim C5: starting from any feed within the 50-entry cap, processing
any sequence of notification-kind messages keeps the feed length at most
50; and when the feed sits exactly at the cap, each prepend yields the
new record followed by the old feed minus exactly its last (oldest)
entry — newest first, oldest evicted. -/
theorem c5_feed_cap (s s' : V1State) (ms : List (NotifKind × Notif))
    (k : NotifKind) (p : Notif)
    (h : s.notifications.length ≤ 50) (h' : s'.notifications.length = 50) :
    (((ms.foldl (fun st kp => v1handleMessage (InMsg.notification kp.1 kp.2) st)
        s).notifications).length ≤ 50)
  ∧ ((v1handleMessage (InMsg.notification k p) s').notifications
      = p :: s'.notifications.dropLast) := by
  constructor
  · induction ms generalizing s with
    | nil => simpa using h
    | cons kp ms ih =>
        simp only [List.foldl_cons]
        apply ih
        simp [v1handleMessage, List.length_take]
  · simp only [v1handleMessage, List.cons.injEq, true_and]
    rw [List.dropLast_eq_take, h']

/-- Witness for C5: one prepend onto the empty feed stays within the
cap, and a prepend onto the concrete 50-entry feed `s50` evicts exactly
its last entry. -/
theorem c5_feed_cap_witness :
    ((([(NotifKind.info, n0)]).foldl
        (fun st kp => v1handleMessage (InMsg.notification kp.1 kp.2) st)
        (v1init (some "u"))).notifications.length ≤ 50)
  ∧ ((v1handleMessage (InMsg.notification NotifKind.info n0) s50).notifications
      = n0 :: s50.notifications.dropLast) :=
  c5_feed_cap (v1init (some "u")) s50 [(NotifKind.info, n0)] NotifKind.info n0
    (by decide) (by simp [s50])

/-! ### Claim C6 -/

/-- Claim C6: for any nonempty sequence of `task_update`
(resp. `workflow_update`) messages sharing entity key `k` — written
`ds ++ [d]`, so `d` is the most recently processed payload — the
progress map afterwards holds exactly `d` at `k` (last-write-wins, whole
payload replaced, no merging), and any other key `q ≠ k` still holds
what it held before. -/
theorem c6_progress_last_write_wins (s : V1State) (k : String)
    (ds : List String) (d : String) (q : String) (hq : q ≠ k) :
    (((ds ++ [d]).foldl (fun st p => v1handleMessage (InMsg.taskUpdate k p) st)
        s).taskUpdates k = some d)
  ∧ (((ds ++ [d]).foldl (fun st p => v1handleMessage (InMsg.taskUpdate k p) st)
        s).taskUpdates q = s.taskUpdates q)
  ∧ (((ds ++ [d]).foldl (fun st p => v1handleMessage (InMsg.workflowUpdate k p) st)
        s).workflowUpdates k = some d)
  ∧ (((ds ++ [d]).foldl (fun st p => v1handleMessage (InMsg.workflowUpdate k p) st)
        s).workflowUpdates q = s.workflowUpdates q) := by
  refine ⟨?_, ?_, ?_, ?_⟩
  · rw [List.foldl_append]
    simp [v1handleMessage]
  · rw [List.foldl_append]
    simp only [List.foldl_cons, List.foldl_nil]
    rw [show ∀ st : V1State, (v1handleMessage (InMsg.taskUpdate k d) st).taskUpdates q
          = st.taskUpdates q from fun st => by simp [v1handleMessage, hq]]
    exact v1taskFold_other_key k ds s q hq
  · rw [List.foldl_append]
    simp [v1handleMessage]
  · rw [List.foldl_append]
    simp only [List.foldl_cons, List.foldl_nil]
    rw [show ∀ st : V1State, (v1handleMessage (InMsg.workflowUpdate k d) st).workflowUpdates q
          = st.workflowUpdates q from fun st => by simp [v1handleMessage, hq]]
    exact v1wfFold_other_key k ds s q hq

/-- Witness for C6 at concrete inputs: two updates for key "t1" leave
`some "b"` (the later payload) at "t1" and key "t2" untouched, in both
progress maps. -/
theorem c6_progress_last_write_wins_witness :
    (((["a"] ++ ["b"]).foldl
        (fun st p => v1handleMessage (InMsg.taskUpdate "t1" p) st)
        (v1init (some "u"))).taskUpdates "t1" = some "b")
  ∧ (((["a"] ++ ["b"]).foldl
        (fun st p => v1handleMessage (InMsg.taskUpdate "t1" p) st)
        (v1init (some "u"))).taskUpdates "t2" = (v1init (some "u")).taskUpdates "t2")
  ∧ (((["a"] ++ ["b"]).foldl
        (fun st p => v1handleMessage (InMsg.workflowUpdate "t1" p) st)
        (v1init (some "u"))).workflowUpdates "t1" = some "b")
  ∧ (((["a"] ++ ["b"]).foldl
        (fun st p => v1handleMessage (InMsg.workflowUpdate "t1" p) st)
        (v1init (some "u"))).workflowUpdates "t2"
      = (v1init (some "u")).workflowUpdates "t2") :=
  c6_progress_last_write_wins (v1init (some "u")) "t1" ["a"] "b" "t2" (by decide)
